import Mathlib

/-!
Verification of the busyness-monitor sensor (`sensor/main.py`).

The evaluator `BusynessEvaluator.calculate_busyness_score` is embedded as a
function of the five raw signals produced by the image pipeline; the pipeline
itself (OpenCV calls) is modelled as an input that is either a tuple of raw
signals or a raised exception, which is what the surrounding `try/except`
observes.  Machine floats are modelled as exact rationals; Python `int()` on a
nonnegative value is floor (truncation toward zero in general).  The monitor
loop, uploader and `main` entry point are embedded as trace-producing
functions over explicit scripts of per-cycle outcomes.
-/

namespace Busyness

/-- A value that can appear in a metadata dict or a parameter list:
a string, a Python int, or a Python float (modelled as a rational). -/
inductive Value where
  | s (v : String)
  | i (v : ℤ)
  | q (v : ℚ)
deriving DecidableEq, Repr

/-- The five raw signals computed by the image pipeline in
`calculate_busyness_score` before normalization: `motion_ratio`,
`edge_ratio`, `color_variance` (`np.var`), `laplacian_var`
(Laplacian variance), and `contour_count` (a list length, hence `ℕ`). -/
structure RawSignals where
  motion_ratio : ℚ
  edge_ratio : ℚ
  color_variance : ℚ
  laplacian_var : ℚ
  contour_count : ℕ
deriving DecidableEq, Repr

/-- A Python dict with string keys, as an association list. -/
abbrev Metadata := List (String × Value)

/-- Weight `weights['motion'] = 0.3` in the source. -/
def weight_motion : ℚ := 0.3

/-- Weight `weights['edges'] = 0.2` in the source. -/
def weight_edges : ℚ := 0.2

/-- Weight `weights['variance'] = 0.2` in the source. -/
def weight_variance : ℚ := 0.2

/-- Weight `weights['texture'] = 0.15` in the source. -/
def weight_texture : ℚ := 0.15

/-- Weight `weights['contours'] = 0.15` in the source. -/
def weight_contours : ℚ := 0.15

/-- Source line `normalized_variance = min(color_variance / 10000, 1.0)`. -/
def normalized_variance (sg : RawSignals) : ℚ :=
  min (sg.color_variance / 10000) 1

/-- Source line `normalized_laplacian = min(laplacian_var / 1000, 1.0)`. -/
def normalized_laplacian (sg : RawSignals) : ℚ :=
  min (sg.laplacian_var / 1000) 1

/-- Source line `normalized_contours = min(contour_count / 20, 1.0)`. -/
def normalized_contours (sg : RawSignals) : ℚ :=
  min ((sg.contour_count : ℚ) / 20) 1

/-- The weighted sum of the five (already normalized) inputs, with the
fixed weights of the source. -/
def weighted_combination (a b c d e : ℚ) : ℚ :=
  weight_motion * a + weight_edges * b + weight_variance * c +
    weight_texture * d + weight_contours * e

/-- Source lines computing `combined_score`: the weights applied to
`motion_ratio`, `edge_ratio` and the three normalized signals. -/
def combined_score (sg : RawSignals) : ℚ :=
  weighted_combination sg.motion_ratio sg.edge_ratio
    (normalized_variance sg) (normalized_laplacian sg) (normalized_contours sg)

/-- Python `int()` applied to a rational: truncation toward zero. -/
def ratTrunc (q : ℚ) : ℤ :=
  if 0 ≤ q then ⌊q⌋ else ⌈q⌉

/-- Source line `busyness_score = max(1, min(10, int(combined_score * 9 + 1)))`. -/
def busyness_score_of (c : ℚ) : ℤ :=
  max 1 (min 10 (ratTrunc (c * 9 + 1)))

/-- The `metadata` dict built on the success path of
`calculate_busyness_score`, in source order. -/
def mk_metadata (sg : RawSignals) : Metadata :=
  [(("motion_ratio"), Value.q sg.motion_ratio),
   (("edge_ratio"), Value.q sg.edge_ratio),
   (("color_variance"), Value.q sg.color_variance),
   (("texture_variance"), Value.q sg.laplacian_var),
   (("contour_count"), Value.i (sg.contour_count : ℤ)),
   (("combined_raw"), Value.q (combined_score sg))]

/-- The metadata dict `{'error': str(e)}` returned by the
`except` branch of `calculate_busyness_score`. -/
def error_metadata (e : String) : Metadata :=
  [(("error"), Value.s e)]

/-- Embedding of `BusynessEvaluator.calculate_busyness_score`: the signal
pipeline either yields the five raw signals or raises (the `Except.error`
case); on success the clamped score and full metadata are returned, on any
exception the fallback `(5, \x7b'error': str(e)\x7d)`. -/
def calculate_busyness_score : Except String RawSignals → ℤ × Metadata
  | Except.ok sg => (busyness_score_of (combined_score sg), mk_metadata sg)
  | Except.error e => (5, error_metadata e)

/-- Modelled from the spec: the final-score formula as the spec words it,
`clamp(round(combined*9)+1, 1, 10)`, with rounding instead of the
truncation the source performs. -/
def spec_score_of (c : ℚ) : ℤ :=
  max 1 (min 10 (round (c * 9) + 1))

/-- C1: for every input accepted by the evaluator — whether the signal
pipeline succeeds with arbitrarily extreme signal values or raises — the
score returned by `calculate_busyness_score` lies in `[1, 10]`. -/
theorem calculate_busyness_score_range (r : Except String RawSignals) :
    1 ≤ (calculate_busyness_score r).1 ∧ (calculate_busyness_score r).1 ≤ 10 := by
  cases r with
  | error e =>
      simp [calculate_busyness_score]
  | ok sg =>
      refine ⟨le_max_left 1 _, ?_⟩
      simp only [calculate_busyness_score, busyness_score_of]
      exact max_le (by norm_num) (min_le_left 10 _)

/-- C3: whenever the five-signal computation raises, the evaluator does not
propagate the exception; it returns exactly the fallback score `5` paired
with a metadata dict whose `error` key holds the exception text, so the
caller always receives a usable `(score, metadata)` pair. -/
theorem calculate_busyness_score_fallback (e : String) :
    calculate_busyness_score (Except.error e) = (5, error_metadata e) ∧
      List.lookup ("error") (calculate_busyness_score (Except.error e)).2 =
        some (Value.s e) := by
  exact ⟨rfl, rfl⟩

/-- C4 counterexample: at raw signals with motion ratio `1/3` and all other
signals zero, the combined weighted sum is `1/10`; the evaluator truncates
`0.9 + 1` to score `1`, while the claimed formula `clamp(round(c*9)+1,1,10)`
gives `2`. -/
theorem truncation_not_rounding_counterexample :
    combined_score (RawSignals.mk (1/3) 0 0 0 0) = 1/10 ∧
    (calculate_busyness_score (Except.ok (RawSignals.mk (1/3) 0 0 0 0))).1 = 1 ∧
    spec_score_of (combined_score (RawSignals.mk (1/3) 0 0 0 0)) = 2 := by
  have hc : combined_score (RawSignals.mk (1/3) 0 0 0 0) = 1/10 := by
    norm_num [combined_score, weighted_combination, weight_motion, weight_edges,
      weight_variance, weight_texture, weight_contours, normalized_variance,
      normalized_laplacian, normalized_contours, min_def]
  have hfloor : ⌊(19/10 : ℚ)⌋ = (1 : ℤ) := by
    rw [Int.floor_eq_iff]
    norm_num
  have hscore : (calculate_busyness_score (Except.ok (RawSignals.mk (1/3) 0 0 0 0))).1 = 1 := by
    show busyness_score_of (combined_score (RawSignals.mk (1/3) 0 0 0 0)) = 1
    rw [hc]
    unfold busyness_score_of ratTrunc
    rw [show ((1:ℚ)/10 * 9 + 1) = 19/10 by norm_num, if_pos (by norm_num : (0:ℚ) ≤ 19/10),
      hfloor]
    omega
  have hspec : spec_score_of (1/10) = 2 := by
    unfold spec_score_of
    rw [show ((1:ℚ)/10 * 9) = 9/10 by norm_num, round_eq,
      show ((9:ℚ)/10 + 1/2) = 7/5 by norm_num,
      show ⌊(7/5 : ℚ)⌋ = (1:ℤ) by rw [Int.floor_eq_iff]; norm_num]
    omega
  exact ⟨hc, hscore, by rw [hc]; exact hspec⟩

/-- C4 amended: for every frame whose combined weighted sum lies in `[0,1]`,
the final integer score equals `clamp(floor(c*9)+1, 1, 10)` — the source
truncates with `int()`, it does not round. -/
theorem evaluator_score_floor_formula (sg : RawSignals)
    (h0 : 0 ≤ combined_score sg) (_h1 : combined_score sg ≤ 1) :
    (calculate_busyness_score (Except.ok sg)).1 =
      max 1 (min 10 (⌊combined_score sg * 9⌋ + 1)) := by
  have h9 : (0:ℚ) ≤ combined_score sg * 9 + 1 := by positivity
  simp only [calculate_busyness_score, busyness_score_of, ratTrunc, if_pos h9]
  rw [Int.floor_add_one]

/-- Witness for the amended C4 theorem at motion ratio `1/3`. -/
theorem evaluator_score_floor_formula_witness :
    0 ≤ combined_score (RawSignals.mk (1/3) 0 0 0 0) ∧
    combined_score (RawSignals.mk (1/3) 0 0 0 0) ≤ 1 ∧
    (calculate_busyness_score (Except.ok (RawSignals.mk (1/3) 0 0 0 0))).1 =
      max 1 (min 10 (⌊combined_score (RawSignals.mk (1/3) 0 0 0 0) * 9⌋ + 1)) :=
  ⟨by norm_num [combined_score, weighted_combination, weight_motion, weight_edges,
      weight_variance, weight_texture, weight_contours, normalized_variance,
      normalized_laplacian, normalized_contours, min_def],
    by norm_num [combined_score, weighted_combination, weight_motion, weight_edges,
      weight_variance, weight_texture, weight_contours, normalized_variance,
      normalized_laplacian, normalized_contours, min_def],
    evaluator_score_floor_formula (RawSignals.mk (1/3) 0 0 0 0)
      (by norm_num [combined_score, weighted_combination, weight_motion, weight_edges,
        weight_variance, weight_texture, weight_contours, normalized_variance,
        normalized_laplacian, normalized_contours, min_def])
      (by norm_num [combined_score, weighted_combination, weight_motion, weight_edges,
        weight_variance, weight_texture, weight_contours, normalized_variance,
        normalized_laplacian, normalized_contours, min_def])⟩

/-- C8 counterexample: on the degraded path the returned metadata does not
contain the `motion_ratio` key (nor any signal key): the claim that every
result carries the five raw signal values fails for degraded results. -/
theorem degraded_metadata_missing_fields :
    List.lookup ("motion_ratio")
      (calculate_busyness_score (Except.error ("boom"))).2 = none := by
  decide

/-- C8 amended: every successfully scored frame's metadata carries the five
raw pre-normalization signal values plus the combined raw score; the
degraded result's metadata instead carries only the `error` field. -/
theorem metadata_signal_fields (sg : RawSignals) (e : String) :
    List.lookup ("motion_ratio") (calculate_busyness_score (Except.ok sg)).2 =
      some (Value.q sg.motion_ratio) ∧
    List.lookup ("edge_ratio") (calculate_busyness_score (Except.ok sg)).2 =
      some (Value.q sg.edge_ratio) ∧
    List.lookup ("color_variance") (calculate_busyness_score (Except.ok sg)).2 =
      some (Value.q sg.color_variance) ∧
    List.lookup ("texture_variance") (calculate_busyness_score (Except.ok sg)).2 =
      some (Value.q sg.laplacian_var) ∧
    List.lookup ("contour_count") (calculate_busyness_score (Except.ok sg)).2 =
      some (Value.i (sg.contour_count : ℤ)) ∧
    List.lookup ("combined_raw") (calculate_busyness_score (Except.ok sg)).2 =
      some (Value.q (combined_score sg)) ∧
    (calculate_busyness_score (Except.error e)).2 = [(("error"), Value.s e)] :=
  ⟨rfl, rfl, rfl, rfl, rfl, rfl, rfl⟩

/-- C9: the five weights are the fixed constants 0.30, 0.20, 0.20, 0.15,
0.15, they sum to exactly 1, and for any five normalized inputs in `[0,1]`
the combined weighted sum lies in `[0,1]`. -/
theorem weights_sum_and_bounds (a b c d e : ℚ)
    (ha0 : 0 ≤ a) (ha1 : a ≤ 1) (hb0 : 0 ≤ b) (hb1 : b ≤ 1)
    (hc0 : 0 ≤ c) (hc1 : c ≤ 1) (hd0 : 0 ≤ d) (hd1 : d ≤ 1)
    (he0 : 0 ≤ e) (he1 : e ≤ 1) :
    (weight_motion = 0.3 ∧ weight_edges = 0.2 ∧ weight_variance = 0.2 ∧
      weight_texture = 0.15 ∧ weight_contours = 0.15) ∧
    weight_motion + weight_edges + weight_variance + weight_texture +
      weight_contours = 1 ∧
    0 ≤ weighted_combination a b c d e ∧ weighted_combination a b c d e ≤ 1 := by
  refine ⟨⟨rfl, rfl, rfl, rfl, rfl⟩,
    by norm_num [weight_motion, weight_edges, weight_variance, weight_texture,
      weight_contours], ?_, ?_⟩
  · simp only [weighted_combination, weight_motion, weight_edges, weight_variance,
      weight_texture, weight_contours]
    nlinarith
  · simp only [weighted_combination, weight_motion, weight_edges, weight_variance,
      weight_texture, weight_contours]
    nlinarith

/-- Rendering of a single value inside `json.dumps`. -/
def json_render : Value → String
  | Value.s v => ("\"") ++ v ++ ("\"")
  | Value.i v => toString v
  | Value.q v => toString v

/-- Embedding of `json.dumps(metadata)`: the dict serialized as a JSON
object in insertion order. -/
def json_dumps (md : Metadata) : String :=
  ("\x7b") ++
    String.intercalate (", ")
      (md.map (fun p => ("\"") ++ p.1 ++ ("\": ") ++ json_render p.2)) ++
  ("\x7d")

/-- Python `metadata.get(k, d)`: the value stored at `k`, or the default. -/
def dict_get (md : Metadata) (k : String) (d : Value) : Value :=
  match List.lookup k md with
  | some v => v
  | none => d

/-- The column list of the INSERT statement in `upload_busyness_data`,
in declared order. -/
def insert_columns : List String :=
  [("timestamp"), ("score"), ("motion_ratio"), ("edge_ratio"),
   ("color_variance"), ("texture_variance"), ("contour_count"),
   ("combined_raw"), ("metadata"), ("notes"), ("camera_name")]

/-- The `params` list built by `CloudflareUploader.upload_busyness_data`,
in source order, with `metadata.get(_, 0)` defaults. -/
def upload_params (score : ℤ) (metadata : Metadata)
    (timestamp notes camera_name : String) : List Value :=
  [Value.s timestamp,
   Value.i score,
   dict_get metadata ("motion_ratio") (Value.i 0),
   dict_get metadata ("edge_ratio") (Value.i 0),
   dict_get metadata ("color_variance") (Value.i 0),
   dict_get metadata ("texture_variance") (Value.i 0),
   dict_get metadata ("contour_count") (Value.i 0),
   dict_get metadata ("combined_raw") (Value.i 0),
   Value.s (json_dumps metadata),
   Value.s notes,
   Value.s camera_name]

/-- C5: for every observation built from a successfully scored frame the
upload payload has exactly 11 positional parameters, in the order
timestamp, score, the five signal values, combined raw, the JSON-serialized
metadata string, notes, camera name — matching the 11 declared insert
columns. -/
theorem upload_params_order (sg : RawSignals) (score : ℤ)
    (timestamp notes camera_name : String) :
    (upload_params score (mk_metadata sg) timestamp notes camera_name).length = 11 ∧
    upload_params score (mk_metadata sg) timestamp notes camera_name =
      [Value.s timestamp, Value.i score, Value.q sg.motion_ratio,
       Value.q sg.edge_ratio, Value.q sg.color_variance,
       Value.q sg.laplacian_var, Value.i (sg.contour_count : ℤ),
       Value.q (combined_score sg), Value.s (json_dumps (mk_metadata sg)),
       Value.s notes, Value.s camera_name] ∧
    insert_columns.length = 11 :=
  ⟨rfl, rfl, rfl⟩

/-- C10: for a degraded result, whose metadata holds only the `error` key,
the uploader still builds a well-formed 11-parameter payload, substituting
the default `0` for each of the six missing numeric metrics. -/
theorem upload_params_degraded (e : String) (score : ℤ)
    (timestamp notes camera_name : String) :
    (upload_params score (error_metadata e) timestamp notes camera_name).length = 11 ∧
    upload_params score (error_metadata e) timestamp notes camera_name =
      [Value.s timestamp, Value.i score, Value.i 0, Value.i 0, Value.i 0,
       Value.i 0, Value.i 0, Value.i 0,
       Value.s (json_dumps (error_metadata e)), Value.s notes,
       Value.s camera_name] :=
  ⟨rfl, rfl⟩

/-- Witness for C9 with all five inputs equal to `1/2`. -/
theorem weights_sum_and_bounds_witness :
    (0 ≤ (1/2 : ℚ) ∧ (1/2 : ℚ) ≤ 1) ∧
    ((weight_motion = 0.3 ∧ weight_edges = 0.2 ∧ weight_variance = 0.2 ∧
        weight_texture = 0.15 ∧ weight_contours = 0.15) ∧
      weight_motion + weight_edges + weight_variance + weight_texture +
        weight_contours = 1 ∧
      0 ≤ weighted_combination (1/2) (1/2) (1/2) (1/2) (1/2) ∧
        weighted_combination (1/2) (1/2) (1/2) (1/2) (1/2) ≤ 1) :=
  ⟨⟨by norm_num, by norm_num⟩,
    weights_sum_and_bounds (1/2) (1/2) (1/2) (1/2) (1/2)
      (by norm_num) (by norm_num) (by norm_num) (by norm_num) (by norm_num)
      (by norm_num) (by norm_num) (by norm_num) (by norm_num) (by norm_num)⟩

/-- Outcome of the HTTP POST in `upload_busyness_data`: a raised network
exception, or a response with a status code and a `success` body field. -/
inductive UploadResp where
  | netError (e : String)
  | http (status : ℕ) (success : Bool)
deriving DecidableEq, Repr

/-- The boolean result of `upload_busyness_data`: `True` only for an HTTP
200 response whose body reports `success: true`; exceptions and every
other response yield `False`. -/
def upload_result : UploadResp → Bool
  | UploadResp.netError _ => false
  | UploadResp.http status success => status == 200 && success

/-- The environment of one monitoring cycle: what `capture_image` yields
(`none` when no frame is obtained), the signal-pipeline outcome for that
frame, and the upload response. -/
structure CycleInput where
  capture : Option (Except String RawSignals)
  upload : UploadResp
deriving Repr

/-- Embedding of `BusynessMonitor.run_once` as its boolean cycle result:
no frame fails the cycle; otherwise the evaluator runs (never raising) and
the cycle result is the upload result.  All exceptions inside the cycle
are caught, so the function is total. -/
def run_once (inp : CycleInput) : Bool :=
  match inp.capture with
  | none => false
  | some r =>
      let _data := calculate_busyness_score r
      upload_result inp.upload

/-- Observable events of a monitor session, in order of occurrence. -/
inductive Event where
  | cycleEv (ok : Bool)
  | sleepEv (interval : ℕ)
  | interruptEv
  | fatalEv (e : String)
  | releaseEv
deriving DecidableEq, Repr

/-- How the continuous loop ends: `while self.running` never becomes false
on its own (only `cleanup` clears the flag), so the loop exits only when an
exception escapes its body — a `KeyboardInterrupt` or some other fatal
exception. -/
inductive Ending where
  | interrupt
  | fatal (e : String)
deriving DecidableEq, Repr

/-- A finite script for one continuous session: the cycle environments
consumed before the loop is ended, and how it ends. -/
structure Script where
  cycles : List CycleInput
  ending : Ending
deriving Repr

/-- The events of the loop body: each iteration runs one cycle and then
sleeps for the configured interval — unconditionally, whatever the cycle
result was. -/
def cycle_trace : List CycleInput → ℕ → List Event
  | [], _ => []
  | inp :: rest, interval =>
      Event.cycleEv (run_once inp) :: Event.sleepEv interval ::
        cycle_trace rest interval

/-- The event marking how the loop ended. -/
def ending_trace : Ending → List Event
  | Ending.interrupt => [Event.interruptEv]
  | Ending.fatal e => [Event.fatalEv e]

/-- Embedding of `CameraCapture.release_camera`: releases the device when
`self.cap` is set; `self.cap` is never cleared, so the guard stays true
after a first release. -/
def release_camera (capSet : Bool) : List Event :=
  if capSet then [Event.releaseEv] else []

/-- Embedding of `BusynessMonitor.cleanup`: clears the running flag and
releases the camera. -/
def cleanup (capSet : Bool) : List Event :=
  release_camera capSet

/-- Embedding of `BusynessMonitor.run_continuous`: cycles with their
inter-cycle sleeps, then the ending (interrupt or fatal exception, both
caught), then the `finally` cleanup.  The function always returns
normally: no exception escapes it. -/
def run_continuous (s : Script) (interval : ℕ) (capSet : Bool) : List Event :=
  cycle_trace s.cycles interval ++ ending_trace s.ending ++ cleanup capSet

/-- The mode selected by the `--once` CLI flag, with the environment the
session consumes. -/
inductive RunMode where
  | once (inp : CycleInput)
  | continuous (s : Script)
deriving Repr

/-- Embedding of `main` after argument parsing: on failed initialization
it returns exit code 1 with no cleanup; otherwise it runs the selected
mode inside `try/finally monitor.cleanup()`.  Run-once returns 0 or 1
from the cycle result; continuous mode returns 0 after `run_continuous`
comes back (which it always does). -/
def main_run (mode : RunMode) (initOk : Bool) (interval : ℕ) : List Event × ℤ :=
  if initOk then
    match mode with
    | RunMode.once inp =>
        let ok := run_once inp
        ([Event.cycleEv ok] ++ cleanup true, if ok then 0 else 1)
    | RunMode.continuous s =>
        (run_continuous s interval true ++ cleanup true, 0)
  else ([], 1)

/-- The loop-body trace distributes over appended cycle lists. -/
theorem cycle_trace_append (xs ys : List CycleInput) (interval : ℕ) :
    cycle_trace (xs ++ ys) interval =
      cycle_trace xs interval ++ cycle_trace ys interval := by
  induction xs with
  | nil => rfl
  | cons x xs ih => simp [cycle_trace, ih]

/-- No release event occurs inside the loop body. -/
theorem releaseEv_not_mem_cycle_trace (inputs : List CycleInput) (interval : ℕ) :
    Event.releaseEv ∉ cycle_trace inputs interval := by
  induction inputs with
  | nil => simp [cycle_trace]
  | cons x xs ih => simp [cycle_trace, ih]

/-- C2: a failed cycle — no frame captured, a scoring exception, or a
failed upload — never terminates the continuous loop: the next cycle still
runs, with exactly one inter-cycle sleep of the configured interval between
the failed cycle and the next one. -/
theorem run_continuous_resilient (xs ys : List CycleInput)
    (bad next : CycleInput) (ending : Ending) (interval : ℕ) (capSet : Bool)
    (_hbad : bad.capture = none ∨ (∃ e, bad.capture = some (Except.error e)) ∨
      upload_result bad.upload = false) :
    run_continuous ⟨xs ++ bad :: next :: ys, ending⟩ interval capSet =
      cycle_trace xs interval ++
        Event.cycleEv (run_once bad) :: Event.sleepEv interval ::
          Event.cycleEv (run_once next) :: Event.sleepEv interval ::
            (cycle_trace ys interval ++ ending_trace ending ++ cleanup capSet) := by
  simp [run_continuous, cycle_trace_append, cycle_trace]

/-- Witness for C2: a cycle that captures no frame, followed by a normal
cycle, in an interrupt-ended session. -/
theorem run_continuous_resilient_witness :
    run_continuous
        ⟨[] ++ CycleInput.mk none (UploadResp.http 200 true) ::
          CycleInput.mk (some (Except.ok (RawSignals.mk 0 0 0 0 0)))
            (UploadResp.http 200 true) :: [], Ending.interrupt⟩ 5 true =
      cycle_trace [] 5 ++
        Event.cycleEv (run_once (CycleInput.mk none (UploadResp.http 200 true))) ::
          Event.sleepEv 5 ::
          Event.cycleEv (run_once (CycleInput.mk
            (some (Except.ok (RawSignals.mk 0 0 0 0 0)))
            (UploadResp.http 200 true))) :: Event.sleepEv 5 ::
            (cycle_trace [] 5 ++ ending_trace Ending.interrupt ++ cleanup true) :=
  run_continuous_resilient [] []
    (CycleInput.mk none (UploadResp.http 200 true))
    (CycleInput.mk (some (Except.ok (RawSignals.mk 0 0 0 0 0)))
      (UploadResp.http 200 true))
    Ending.interrupt 5 true (Or.inl rfl)

/-- C6 counterexample: in a continuous session stopped by an interrupt
directly from the idle state, the frame source is released twice — once by
the `finally` of `run_continuous` and once more by the `finally` of `main`
(the camera handle is never cleared, so the second `cleanup` releases
again). -/
theorem cleanup_twice_counterexample :
    ((main_run (RunMode.continuous ⟨[], Ending.interrupt⟩) true 5).1.count
      Event.releaseEv) = 2 := by
  decide

/-- C6 amended: after a successful initialization, cleanup runs on every
stop path, but not exactly once in every mode: the frame source is released
exactly once per run-once session and exactly twice per continuous session,
whatever the cycles and however the loop ends. -/
theorem cleanup_release_count (inp : CycleInput) (s : Script) (interval : ℕ) :
    ((main_run (RunMode.once inp) true interval).1.count Event.releaseEv) = 1 ∧
    ((main_run (RunMode.continuous s) true interval).1.count Event.releaseEv) = 2 := by
  constructor
  · simp [main_run, cleanup, release_camera, List.count_cons, List.count_append]
  · have h0 := List.count_eq_zero.mpr (releaseEv_not_mem_cycle_trace s.cycles interval)
    have h1 : (ending_trace s.ending).count Event.releaseEv = 0 := by
      cases s.ending <;> simp [ending_trace]
    simp [main_run, run_continuous, cleanup, release_camera, List.count_append,
      h0, h1]

/-- C7 counterexample: a fatal error escaping the cycle boundary inside the
continuous loop is swallowed by the catch-all handler of `run_continuous`,
and the process exit status is 0, not non-zero. -/
theorem fatal_exit_status_counterexample :
    (main_run (RunMode.continuous ⟨[], Ending.fatal ("boom")⟩) true 5).2 = 0 := by
  decide

/-- C7 amended: an error escaping the per-cycle boundaries in the
continuous loop terminates the loop (no further cycle events) and triggers
cleanup, but the process exit status is 0; a non-zero exit status arises
from a failed initialization (and from a failed run-once cycle), not from a
loop-level fatal error. -/
theorem fatal_error_behavior (cycles : List CycleInput) (e : String)
    (interval : ℕ) :
    main_run (RunMode.continuous ⟨cycles, Ending.fatal e⟩) true interval =
      (cycle_trace cycles interval ++
        [Event.fatalEv e, Event.releaseEv, Event.releaseEv], 0) ∧
    (main_run (RunMode.continuous ⟨cycles, Ending.fatal e⟩) false interval).2 = 1 := by
  constructor
  · simp [main_run, run_continuous, ending_trace, cleanup, release_camera]
  · simp [main_run]

end Busyness
